import Mathlib

/-!
Shallow embedding of the x402 mock payment server (src/src/server.ts, both the
fungible-token variant and the native-coin variant of SolanaX402Server, and the
shared data types from the types module).  JS numbers are modelled as rationals,
nullable JS values as Option, and the thrown/caught control flow of the ledger
fetch as an Except parameter.  Numeric string interpolation in template
literals is modelled by numStr below.
-/

/-- Decimal rendering of a JS number inside a template literal.  JS prints
for example 1.5 where Rat prints 3/2; the two agree on integers, and no claim
in this development depends on the rendering of a non-integer. -/
def numStr (q : ℚ) : String := toString q

/-- Rendering of a possibly-undefined JS number inside a template literal:
an undefined amount divided by a power of ten is NaN, which renders as NaN. -/
def numStrOpt : Option ℚ → String
  | some a => numStr a
  | none => "NaN"

/-- JS a || b on numbers: a zero or absent left operand falls through. -/
def jsOrNum (a b : Option ℚ) : Option ℚ :=
  match a with
  | some x => if x = 0 then b else some x
  | none => b

/-- JS a || b on strings: an empty or absent left operand falls through. -/
def jsOrStr (a : Option String) (b : String) : String :=
  match a with
  | some s => if s = "" then b else s
  | none => b

/-- JS comparison a < b where a may be undefined: a comparison against
undefined (NaN) is false. -/
def ltJS (a : Option ℚ) (b : ℚ) : Bool :=
  match a with
  | some x => decide (x < b)
  | none => false

/-- parsed.info of a parsed instruction: the fields read by findTokenTransfer.
The amount field of a token transfer, and the nested tokenAmount.amount of a
checked transfer, may each be absent. -/
structure ParsedInfo where
  source : String
  destination : String
  amount : Option ℚ
  tokenAmount : Option ℚ
deriving Repr, DecidableEq

/-- A ParsedInstruction: its owning program label, its decoded type, and its
decoded info. -/
structure ParsedData where
  program : String
  type : String
  info : ParsedInfo
deriving Repr, DecidableEq

/-- One entry of tx.transaction.message.instructions: either a
ParsedInstruction (the parsed field is set) or a PartiallyDecodedInstruction
(no parsed field). -/
inductive Instruction where
  | parsed (d : ParsedData)
  | partiallyDecoded (programId : String)
deriving Repr, DecidableEq

/-- tx.meta: execution error (null on success) and the balance snapshots used
by the native-coin verifier. -/
structure TxMeta where
  err : Option String
  preBalances : List ℚ
  postBalances : List ℚ
deriving Repr, DecidableEq

/-- A ParsedTransactionWithMeta as read by the token verifier: blockTime may
be null, meta may be null, plus the instruction list. -/
structure ParsedTx where
  blockTime : Option ℚ
  meta : Option TxMeta
  instructions : List Instruction
deriving Repr, DecidableEq

/-- A transaction record as read by the native verifier: blockTime, meta, and
the static account keys of the message (base58 strings). -/
structure NativeTx where
  blockTime : Option ℚ
  meta : Option TxMeta
  staticAccountKeys : List String
deriving Repr, DecidableEq

/-- The PaymentVerification verdict from the types module.  Optional fields
are absent (none) unless set; the source field names from and to are spelt
fromAcct and toAcct because from is reserved in Lean. -/
structure PaymentVerification where
  valid : Bool
  signature : Option String := none
  amount : Option ℚ := none
  token : Option String := none
  fromAcct : Option String := none
  toAcct : Option String := none
  timestamp : Option ℚ := none
  error : Option String := none
deriving Repr, DecidableEq

/-- The normalized transfer descriptor returned by findTokenTransfer. -/
structure TransferInfo where
  source : String
  destination : String
  amount : Option ℚ
deriving Repr, DecidableEq

/-- Modelled from the spec: src/constants.ts is not in the source tree.
USDC_DECIMALS is the fixed decimal precision of the token asset (6 for USDC);
no claim depends on the concrete value. -/
def USDC_DECIMALS : ℕ := 6

/-- Modelled from the spec: src/constants.ts is not in the source tree.
X402_VERSION is the protocol version string carried in the requirements body
and the authenticate header; no claim depends on the concrete value. -/
def X402_VERSION : String := "1.0"

/-- LAMPORTS_PER_SOL from the solana web3 library: base units per SOL. -/
def LAMPORTS_PER_SOL : ℚ := 1000000000

/-- findTokenTransfer (token variant): walk the instruction list and return
source, destination and raw amount of the first parsed instruction whose
decoded type is transfer or transferChecked.  The amount is
parsed.info.amount || parsed.info.tokenAmount?.amount.  Note the source
performs no check of the owning program. -/
def findTokenTransfer : List Instruction → Option TransferInfo
  | [] => none
  | Instruction.parsed d :: rest =>
      if d.type = "transfer" ∨ d.type = "transferChecked" then
        some { source := d.info.source, destination := d.info.destination,
               amount := jsOrNum d.info.amount d.info.tokenAmount }
      else findTokenTransfer rest
  | Instruction.partiallyDecoded _ :: rest => findTokenTransfer rest

/-- The freshness test of the token verifier: the age check runs only when
txTime is truthy (non-null and nonzero); age is Date.now()/1000 - txTime. -/
def tokenStale (blockTime : Option ℚ) (nowMs maxAgeSeconds : ℚ) : Bool :=
  match blockTime with
  | some t => if t = 0 then false else decide (nowMs / 1000 - t > maxAgeSeconds)
  | none => false

/-- txTime || undefined: the timestamp field of a successful token verdict is
undefined when blockTime is null or zero. -/
def jsTruthyOrUndef (t : Option ℚ) : Option ℚ :=
  match t with
  | some x => if x = 0 then none else some x
  | none => none

/-- The try-block of the token verifyPayment, after the ledger fetch has
produced its result (none = transaction not found).  recipientTokenAccount is
the derived token account held by the server, still none when the server was
never initialized. -/
def verifyPaymentTokenBody (tx? : Option ParsedTx)
    (recipientTokenAccount : Option String) (nowMs : ℚ) (signature : String)
    (expectedAmount : ℚ) (maxAgeSeconds : ℚ) : PaymentVerification :=
  match tx? with
  | none => { valid := false, error := some "Transaction not found" }
  | some tx =>
    if (tx.meta.bind TxMeta.err).isSome then
      { valid := false, error := some "Transaction failed" }
    else if tokenStale tx.blockTime nowMs maxAgeSeconds then
      { valid := false,
        error := some ("Transaction too old (" ++
          toString (⌊nowMs / 1000 - tx.blockTime.getD 0⌋ : ℤ) ++ "s > " ++
          numStr maxAgeSeconds ++ "s)") }
    else
      match findTokenTransfer tx.instructions with
      | none =>
          { valid := false, error := some "No token transfer found in transaction" }
      | some transferInfo =>
        if recipientTokenAccount ≠ some transferInfo.destination then
          { valid := false, error := some "Payment sent to wrong address" }
        else
          if ltJS transferInfo.amount (expectedAmount * 10 ^ USDC_DECIMALS) then
            { valid := false,
              error := some ("Insufficient payment amount: " ++
                numStrOpt (transferInfo.amount.map (fun a => a / 10 ^ USDC_DECIMALS)) ++
                " < " ++ numStr expectedAmount) }
          else
            { valid := true, signature := some signature,
              amount := transferInfo.amount.map (fun a => a / 10 ^ USDC_DECIMALS),
              token := some "USDC", fromAcct := some transferInfo.source,
              toAcct := some transferInfo.destination,
              timestamp := jsTruthyOrUndef tx.blockTime }

/-- The token verifyPayment with its surrounding try/catch: a thrown fetch
error (the error parameter of the catch) is converted into a failed verdict,
with the fallback message when error.message is falsy.  The function never
produces an Except.error. -/
def verifyPaymentToken (fetch : Except String (Option ParsedTx))
    (recipientTokenAccount : Option String) (nowMs : ℚ) (signature : String)
    (expectedAmount : ℚ) (maxAgeSeconds : ℚ) : Except String PaymentVerification :=
  match fetch with
  | Except.error e =>
      Except.ok { valid := false,
                  error := some (if e = "" then "Unknown error during verification" else e) }
  | Except.ok tx? =>
      Except.ok (verifyPaymentTokenBody tx? recipientTokenAccount nowMs signature
        expectedAmount maxAgeSeconds)

/-- The recipient balance delta of the native verifier in display units:
(tx.meta?.postBalances[idx] || 0) - (tx.meta?.preBalances[idx] || 0), divided
by LAMPORTS_PER_SOL. -/
def nativeReceivedSol (tx : NativeTx) (idx : ℕ) : ℚ :=
  (((tx.meta.map TxMeta.postBalances).bind (fun l => l.get? idx)).getD 0 -
   ((tx.meta.map TxMeta.preBalances).bind (fun l => l.get? idx)).getD 0) /
  LAMPORTS_PER_SOL

/-- The try-block of the native-coin verifyPayment, after the ledger fetch has
produced its result. -/
def verifyPaymentNativeBody (tx? : Option NativeTx) (recipientAddress : String)
    (nowMs : ℚ) (signature : String) (expectedAmountSol : ℚ)
    (maxAgeSeconds : ℚ) : PaymentVerification :=
  match tx? with
  | none => { valid := false, error := some "Transaction not found" }
  | some tx =>
    let now : ℚ := (⌊nowMs / 1000⌋ : ℤ)
    let txTime : ℚ := tx.blockTime.getD 0
    let age : ℚ := now - txTime
    if age > maxAgeSeconds then
      { valid := false,
        error := some ("Transaction too old: " ++ numStr age ++ "s (max " ++
          numStr maxAgeSeconds ++ "s)") }
    else if (tx.meta.bind TxMeta.err).isSome then
      { valid := false, error := some "Transaction failed" }
    else
      match tx.staticAccountKeys.findIdx? (fun key => key == recipientAddress) with
      | none => { valid := false, error := some "Recipient not found in transaction" }
      | some recipientIndex =>
        let receivedSol : ℚ := nativeReceivedSol tx recipientIndex
        let tolerance : ℚ := 1 / 10000
        if |receivedSol - expectedAmountSol| > tolerance then
          { valid := false,
            error := some ("Amount mismatch: expected " ++ numStr expectedAmountSol ++
              " SOL, got " ++ numStr receivedSol ++ " SOL") }
        else
          { valid := true, signature := some signature, amount := some receivedSol,
            token := some "SOL",
            fromAcct := some (tx.staticAccountKeys.headD ""),
            toAcct := some recipientAddress, timestamp := some txTime }

/-- The native verifyPayment with its surrounding try/catch: a thrown fetch
error becomes a failed verdict prefixed with a fixed label.  The function
never produces an Except.error. -/
def verifyPaymentNative (fetch : Except String (Option NativeTx))
    (recipientAddress : String) (nowMs : ℚ) (signature : String)
    (expectedAmountSol : ℚ) (maxAgeSeconds : ℚ) : Except String PaymentVerification :=
  match fetch with
  | Except.error e =>
      Except.ok { valid := false, error := some ("Verification failed: " ++ e) }
  | Except.ok tx? =>
      Except.ok (verifyPaymentNativeBody tx? recipientAddress nowMs signature
        expectedAmountSol maxAgeSeconds)

/-- isSignatureUsed: the ledger (a map from signature to transaction record
at confirmed depth) holds a record for the signature.  It takes no
consumption state at all. -/
def isSignatureUsed (getTx : String → Option NativeTx) (signature : String) : Bool :=
  (getTx signature).isSome

/-- Modelled from the spec: the ReplayGuard consumed-marker store required by
section 4.4 but absent from the source; a signature is used exactly when it
was previously marked consumed. -/
def consumedCheck (consumed : List String) (signature : String) : Bool :=
  consumed.contains signature

/-- The server configuration fields read by the challenge builder. -/
structure X402ServerConfig where
  network : String
  recipientAddress : String
deriving Repr, DecidableEq

/-- One PaymentOption of the requirements body. -/
structure PaymentOption where
  id : String
  scheme : String
  network : String
  recipient : String
  token : String
  amount : String
  decimals : ℕ
deriving Repr, DecidableEq

/-- PaymentRequirements: version plus the ordered list of options. -/
structure PaymentRequirements where
  version : String
  paymentOptions : List PaymentOption
deriving Repr, DecidableEq

/-- The header object of an X402Response; the record type has exactly these
two fields, mirroring the two literal header names of the source. -/
structure ResponseHeaders where
  contentType : String
  wwwAuthenticate : String
deriving Repr, DecidableEq

/-- X402Response: status code, the two headers, and the requirements body. -/
structure X402Response where
  statusCode : ℕ
  headers : ResponseHeaders
  body : PaymentRequirements
deriving Repr, DecidableEq

/-- createPaymentRequirements of the token variant.  When the recipient token
account is still unset it is first derived (ata is the associated token
address the derivation would produce); the updated account is returned next
to the requirements since the method mutates the server.  The default id
interpolates Date.now(). -/
def createPaymentRequirements (config : X402ServerConfig) (usdcMint : String)
    (recipientTokenAccount : Option String) (ata : String) (nowMs : ℚ)
    (amount : ℚ) (resourceId : Option String) :
    Option String × PaymentRequirements :=
  let rta : Option String :=
    match recipientTokenAccount with
    | none => some ata
    | some s => some s
  (rta,
   { version := X402_VERSION,
     paymentOptions := [
       { id := jsOrStr resourceId ("payment-" ++ numStr nowMs),
         scheme := "solana", network := config.network,
         recipient := config.recipientAddress, token := usdcMint,
         amount := numStr amount, decimals := USDC_DECIMALS }] })

/-- create402Response of the token variant: wraps the requirements with the
402 status and the two fixed headers. -/
def create402Response (config : X402ServerConfig) (usdcMint : String)
    (recipientTokenAccount : Option String) (ata : String) (nowMs : ℚ)
    (amount : ℚ) (resourceId : Option String) : Option String × X402Response :=
  let r := createPaymentRequirements config usdcMint recipientTokenAccount ata
    nowMs amount resourceId
  (r.1,
   { statusCode := 402,
     headers := { contentType := "application/json",
                  wwwAuthenticate := "x402 version=\"" ++ X402_VERSION ++ "\"" },
     body := r.2 })

/-- The transfer-shaped test of the instruction scan: a parsed instruction of
decoded type transfer or transferChecked, with no program restriction. -/
def isTransferLike : Instruction → Bool
  | Instruction.parsed d => d.type = "transfer" || d.type = "transferChecked"
  | Instruction.partiallyDecoded _ => false

/-- Well-shapedness of a token-mode verdict: a failed verdict carries only an
error; a successful verdict carries signature, token, source and destination
and no error, while amount and timestamp may each be absent (an absent raw
amount, a null or zero block time). -/
def verdictShapeTok (v : PaymentVerification) : Prop :=
  (v.valid = true → v.signature.isSome ∧ v.token.isSome ∧ v.fromAcct.isSome ∧
    v.toAcct.isSome ∧ v.error = none) ∧
  (v.valid = false → v.error.isSome ∧ v.signature = none ∧ v.amount = none ∧
    v.token = none ∧ v.fromAcct = none ∧ v.toAcct = none ∧ v.timestamp = none)

/-- Well-shapedness of a native-mode verdict: a failed verdict carries only an
error; a successful verdict carries every success field including amount and
timestamp. -/
def verdictShapeNat (v : PaymentVerification) : Prop :=
  (v.valid = true → v.signature.isSome ∧ v.amount.isSome ∧ v.token.isSome ∧
    v.fromAcct.isSome ∧ v.toAcct.isSome ∧ v.timestamp.isSome ∧ v.error = none) ∧
  (v.valid = false → v.error.isSome ∧ v.signature = none ∧ v.amount = none ∧
    v.token = none ∧ v.fromAcct = none ∧ v.toAcct = none ∧ v.timestamp = none)

/-- C1 counterexample: the claim states that a thrown error reaches the caller
exactly when the ledger fetch fails; at this concrete failing fetch the token
verifier instead returns an ok failed verdict, so no error reaches the caller. -/
theorem C1_counterexample :
    verifyPaymentToken (Except.error "Network request failed") none 0 "sig" 1 300 =
      Except.ok { valid := false, error := some "Network request failed" } := by
  rfl

/-- C1 (amended): verifyPayment never propagates a thrown error to the caller:
in both variants every call, a failing ledger fetch included, produces an ok
verdict, because the catch block converts the thrown error into a failed
verdict; the six business failures are likewise returned as verdicts. -/
theorem C1_never_throws (fetchTok : Except String (Option ParsedTx))
    (fetchNat : Except String (Option NativeTx)) (rta : Option String)
    (addr : String) (nowMs : ℚ) (sig : String) (expAmt maxAge : ℚ) :
    (∃ v, verifyPaymentToken fetchTok rta nowMs sig expAmt maxAge = Except.ok v) ∧
    (∃ w, verifyPaymentNative fetchNat addr nowMs sig expAmt maxAge = Except.ok w) := by
  constructor
  · cases fetchTok <;> exact ⟨_, rfl⟩
  · cases fetchNat <;> exact ⟨_, rfl⟩

/-- C5 counterexample: the claim states that instructions of other programs do
not match the transfer extractor; this parsed system-program transfer is
matched and returned. -/
theorem C5_counterexample :
    findTokenTransfer
        [Instruction.parsed
          { program := "system", type := "transfer",
            info := { source := "A", destination := "B", amount := some 5,
                      tokenAmount := none } }] =
      some { source := "A", destination := "B", amount := some 5 } := by
  rfl

/-- C5 (amended): the extractor returns the source, destination and raw amount
of the first instruction in list order whose decoded type is transfer or
transferChecked, with no restriction on the owning program, and returns none
when no such instruction exists. -/
theorem C5_first_transfer_any_program (instrs : List Instruction) :
    findTokenTransfer instrs =
      (instrs.find? isTransferLike).bind (fun i =>
        match i with
        | Instruction.parsed d =>
            some { source := d.info.source, destination := d.info.destination,
                   amount := jsOrNum d.info.amount d.info.tokenAmount }
        | Instruction.partiallyDecoded _ => none) := by
  induction instrs with
  | nil => rfl
  | cons i rest ih =>
    cases i with
    | parsed d =>
      by_cases h : d.type = "transfer" ∨ d.type = "transferChecked"
      · have hb : isTransferLike (Instruction.parsed d) = true := by
          simp only [isTransferLike, Bool.or_eq_true, decide_eq_true_eq]
          exact h
        rw [List.find?_cons_of_pos _ (by rw [hb])]
        simp [findTokenTransfer, if_pos h]
      · have hb : isTransferLike (Instruction.parsed d) = false := by
          push_neg at h
          simp only [isTransferLike, Bool.or_eq_false_iff, decide_eq_false_iff_not]
          exact ⟨h.1, h.2⟩
        rw [List.find?_cons_of_neg _ (by rw [hb]; exact Bool.false_ne_true)]
        rw [findTokenTransfer, if_neg h]
        exact ih
    | partiallyDecoded p =>
      rw [List.find?_cons_of_neg _ (by exact Bool.false_ne_true)]
      exact ih

/-- C7: isSignatureUsed answers whether the ledger holds a record for the
signature at confirmed depth; it consults no consumption state, so a signature
whose record exists but was never marked consumed is still reported used,
violating the ReplayGuard contract. -/
theorem C7_signature_used_is_existence :
    (∀ (ledger : String → Option NativeTx) (s : String),
        isSignatureUsed ledger s = (ledger s).isSome) ∧
    (∃ (ledger : String → Option NativeTx) (s : String),
        isSignatureUsed ledger s = true ∧ consumedCheck [] s = false) := by
  refine ⟨fun _ _ => rfl, ?_⟩
  exact ⟨fun _ => some { blockTime := none, meta := none, staticAccountKeys := [] },
    "sig", rfl, rfl⟩

/-- C8: create402Response yields status 402, exactly the two fixed headers
(the header record has exactly the two fields of the source type), and a body
equal to the requirements produced by createPaymentRequirements for the same
inputs, with the protocol version and exactly one option whose amount is the
decimal rendering of the price. -/
theorem C8_response_shape (config : X402ServerConfig) (usdcMint : String)
    (rta : Option String) (ata : String) (nowMs amount : ℚ)
    (resourceId : Option String) :
    (create402Response config usdcMint rta ata nowMs amount resourceId).2.statusCode = 402 ∧
    (create402Response config usdcMint rta ata nowMs amount resourceId).2.headers =
      { contentType := "application/json",
        wwwAuthenticate := "x402 version=\"" ++ X402_VERSION ++ "\"" } ∧
    (create402Response config usdcMint rta ata nowMs amount resourceId).2.body =
      (createPaymentRequirements config usdcMint rta ata nowMs amount resourceId).2 ∧
    (create402Response config usdcMint rta ata nowMs amount resourceId).2.body.version =
      X402_VERSION ∧
    (create402Response config usdcMint rta ata nowMs amount resourceId).2.body.paymentOptions.map
      PaymentOption.amount = [numStr amount] := by
  exact ⟨rfl, rfl, rfl, rfl, rfl⟩

/-- C2 counterexample: this record is both stale (blockTime 10 against a clock
of 1000 seconds, far beyond the 300 second maximum) and reports an execution
error; the claim says the verdict must be the too-old failure, but the token
verifier checks execution first and returns the failed verdict. -/
theorem C2_counterexample :
    (1000000 : ℚ) / 1000 - 10 > 300 ∧
    verifyPaymentTokenBody
        (some { blockTime := some 10,
                meta := some { err := some "InstructionError", preBalances := [],
                               postBalances := [] },
                instructions := [] })
        (some "ATA") 1000000 "sig" 1 300 =
      { valid := false, error := some "Transaction failed" } := by
  exact ⟨by norm_num, rfl⟩

/-- C2 (amended): each check short-circuits, but the two variants order the
freshness and execution checks oppositely: the token verifier returns the
execution failure even for a stale record, while the native verifier returns
the too-old failure even for a record with an execution error. -/
theorem C2_check_order (tx : ParsedTx) (ntx : NativeTx) (rta : Option String)
    (addr : String) (nowMs : ℚ) (sig : String) (expAmt maxAge : ℚ)
    (herr : (tx.meta.bind TxMeta.err).isSome = true)
    (hstale : ((⌊nowMs / 1000⌋ : ℤ) : ℚ) - ntx.blockTime.getD 0 > maxAge) :
    verifyPaymentTokenBody (some tx) rta nowMs sig expAmt maxAge =
      { valid := false, error := some "Transaction failed" } ∧
    verifyPaymentNativeBody (some ntx) addr nowMs sig expAmt maxAge =
      { valid := false,
        error := some ("Transaction too old: " ++
          numStr (((⌊nowMs / 1000⌋ : ℤ) : ℚ) - ntx.blockTime.getD 0) ++ "s (max " ++
          numStr maxAge ++ "s)") } := by
  constructor
  · rw [verifyPaymentTokenBody]
    rw [if_pos herr]
  · rw [verifyPaymentNativeBody]
    rw [if_pos hstale]

/-- C2 witness: a concrete stale record with an execution error, settled by the
amended theorem at that input. -/
theorem C2_check_order_witness :
    verifyPaymentTokenBody
        (some { blockTime := some 10,
                meta := some { err := some "InstructionError", preBalances := [],
                               postBalances := [] },
                instructions := [] })
        (some "ATA") 1000000 "sig" 1 300 =
      { valid := false, error := some "Transaction failed" } :=
  (C2_check_order
    { blockTime := some 10,
      meta := some { err := some "InstructionError", preBalances := [],
                     postBalances := [] },
      instructions := [] }
    { blockTime := some 0, meta := none, staticAccountKeys := [] }
    (some "ATA") "R" 1000000 "sig" 1 300 rfl (by norm_num)).1

/-- C3: in native mode, for a record that is found, fresh, successful, and in
which the configured recipient appears in the account list, the verdict is
valid exactly when the recipient balance delta in display units is within the
tolerance 1/10000 of the expected amount, and a delta outside the tolerance
yields the amount-mismatch failure. -/
theorem C3_native_amount_tolerance (ntx : NativeTx) (addr : String) (nowMs : ℚ)
    (sig : String) (expAmt maxAge : ℚ) (idx : ℕ)
    (hfresh : ¬(((⌊nowMs / 1000⌋ : ℤ) : ℚ) - ntx.blockTime.getD 0 > maxAge))
    (hok : ntx.meta.bind TxMeta.err = none)
    (hidx : ntx.staticAccountKeys.findIdx? (fun key => key == addr) = some idx) :
    ((verifyPaymentNativeBody (some ntx) addr nowMs sig expAmt maxAge).valid = true ↔
      |nativeReceivedSol ntx idx - expAmt| ≤ 1 / 10000) ∧
    (|nativeReceivedSol ntx idx - expAmt| > 1 / 10000 →
      verifyPaymentNativeBody (some ntx) addr nowMs sig expAmt maxAge =
        { valid := false,
          error := some ("Amount mismatch: expected " ++ numStr expAmt ++
            " SOL, got " ++ numStr (nativeReceivedSol ntx idx) ++ " SOL") }) := by
  have hbody : verifyPaymentNativeBody (some ntx) addr nowMs sig expAmt maxAge =
      if |nativeReceivedSol ntx idx - expAmt| > 1 / 10000 then
        { valid := false,
          error := some ("Amount mismatch: expected " ++ numStr expAmt ++
            " SOL, got " ++ numStr (nativeReceivedSol ntx idx) ++ " SOL") }
      else
        { valid := true, signature := some sig,
          amount := some (nativeReceivedSol ntx idx), token := some "SOL",
          fromAcct := some (ntx.staticAccountKeys.headD ""),
          toAcct := some addr, timestamp := some (ntx.blockTime.getD 0) } := by
    rw [verifyPaymentNativeBody]
    rw [if_neg hfresh]
    rw [hok]
    simp only [Option.isSome_none, Bool.false_eq_true, if_false]
    rw [hidx]
  refine ⟨?_, ?_⟩
  · by_cases hc : |nativeReceivedSol ntx idx - expAmt| > 1 / 10000
    · rw [hbody, if_pos hc]
      simpa using hc
    · rw [hbody, if_neg hc]
      simpa using not_lt.mp hc
  · intro hgt
    rw [hbody, if_pos hgt]

/-- C3 witness: a concrete in-tolerance native payment of 0.01 SOL, settled by
the theorem at that input. -/
theorem C3_witness :
    (verifyPaymentNativeBody
        (some { blockTime := some 0,
                meta := some { err := none, preBalances := [0],
                               postBalances := [10000000] },
                staticAccountKeys := ["R"] })
        "R" 0 "sig" (1 / 100) 300).valid = true :=
  ((C3_native_amount_tolerance
      { blockTime := some 0,
        meta := some { err := none, preBalances := [0], postBalances := [10000000] },
        staticAccountKeys := ["R"] }
      "R" 0 "sig" (1 / 100) 300 0 (by norm_num) rfl rfl).1).mpr
    (by norm_num [nativeReceivedSol, LAMPORTS_PER_SOL])

/-- C4: in token mode, for a record that is found, fresh, successful, whose
extracted transfer carries an amount and whose destination equals the expected
derived token account, the verdict is valid exactly when the raw amount is at
least the expected amount converted to base units, and a smaller amount yields
the insufficient-payment failure (overpayment is accepted). -/
theorem C4_token_amount_threshold (tx : ParsedTx) (ti : TransferInfo) (a : ℚ)
    (nowMs : ℚ) (sig : String) (expAmt maxAge : ℚ)
    (hok : (tx.meta.bind TxMeta.err).isSome = false)
    (hfresh : tokenStale tx.blockTime nowMs maxAge = false)
    (hti : findTokenTransfer tx.instructions = some ti)
    (ha : ti.amount = some a) :
    ((verifyPaymentTokenBody (some tx) (some ti.destination) nowMs sig expAmt
        maxAge).valid = true ↔ expAmt * 10 ^ USDC_DECIMALS ≤ a) ∧
    (a < expAmt * 10 ^ USDC_DECIMALS →
      verifyPaymentTokenBody (some tx) (some ti.destination) nowMs sig expAmt maxAge =
        { valid := false,
          error := some ("Insufficient payment amount: " ++
            numStr (a / 10 ^ USDC_DECIMALS) ++ " < " ++ numStr expAmt) }) := by
  have hbody : verifyPaymentTokenBody (some tx) (some ti.destination) nowMs sig
      expAmt maxAge =
      if a < expAmt * 10 ^ USDC_DECIMALS then
        { valid := false,
          error := some ("Insufficient payment amount: " ++
            numStr (a / 10 ^ USDC_DECIMALS) ++ " < " ++ numStr expAmt) }
      else
        { valid := true, signature := some sig,
          amount := some (a / 10 ^ USDC_DECIMALS), token := some "USDC",
          fromAcct := some ti.source, toAcct := some ti.destination,
          timestamp := jsTruthyOrUndef tx.blockTime } := by
    rw [verifyPaymentTokenBody]
    rw [hok]
    simp only [Bool.false_eq_true, if_false]
    rw [hfresh]
    simp only [Bool.false_eq_true, if_false]
    rw [hti]
    dsimp only
    rw [if_neg (show ¬(some ti.destination ≠ some ti.destination) by simp)]
    rw [ha]
    simp [ltJS, numStrOpt]
  refine ⟨?_, ?_⟩
  · by_cases hc : a < expAmt * 10 ^ USDC_DECIMALS
    · rw [hbody, if_pos hc]
      simpa using hc
    · rw [hbody, if_neg hc]
      simpa using not_lt.mp hc
  · intro hlt
    rw [hbody, if_pos hlt]

/-- C4 witness: a concrete overpaid token transfer (15000 base units against an
expected 10000), settled by the theorem at that input. -/
theorem C4_witness :
    (verifyPaymentTokenBody
        (some { blockTime := some 100,
                meta := some { err := none, preBalances := [], postBalances := [] },
                instructions := [Instruction.parsed
                  { program := "spl-token", type := "transfer",
                    info := { source := "SRC", destination := "DST",
                              amount := some 15000, tokenAmount := none } }] })
        (some "DST") 100000 "sig" (1 / 100) 300).valid = true :=
  ((C4_token_amount_threshold
      { blockTime := some 100,
        meta := some { err := none, preBalances := [], postBalances := [] },
        instructions := [Instruction.parsed
          { program := "spl-token", type := "transfer",
            info := { source := "SRC", destination := "DST",
                      amount := some 15000, tokenAmount := none } }] }
      { source := "SRC", destination := "DST", amount := some 15000 }
      15000 100000 "sig" (1 / 100) 300 rfl (by norm_num [tokenStale]) rfl rfl).1).mpr
    (by norm_num [USDC_DECIMALS])

/-- Every token-mode verdict is well shaped in the sense of verdictShapeTok:
proved by walking all branches of the verifier body. -/
theorem verifyPaymentTokenBody_shape (tx? : Option ParsedTx)
    (rta : Option String) (nowMs : ℚ) (sig : String) (expAmt maxAge : ℚ) :
    verdictShapeTok (verifyPaymentTokenBody tx? rta nowMs sig expAmt maxAge) := by
  unfold verdictShapeTok
  cases tx? with
  | none => simp [verifyPaymentTokenBody]
  | some tx =>
    rw [verifyPaymentTokenBody]
    repeat' split
    all_goals simp

/-- Every native-mode verdict is well shaped in the sense of verdictShapeNat:
proved by walking all branches of the verifier body. -/
theorem verifyPaymentNativeBody_shape (tx? : Option NativeTx) (addr : String)
    (nowMs : ℚ) (sig : String) (expAmt maxAge : ℚ) :
    verdictShapeNat (verifyPaymentNativeBody tx? addr nowMs sig expAmt maxAge) := by
  unfold verdictShapeNat
  cases tx? with
  | none => simp [verifyPaymentNativeBody]
  | some tx =>
    rw [verifyPaymentNativeBody]
    dsimp only
    repeat' split
    all_goals simp

/-- C6 counterexample: a successful token verdict for a record whose block time
is null carries no timestamp, against the claim that every success populates
all six fields. -/
theorem C6_counterexample :
    (verifyPaymentTokenBody
        (some { blockTime := none,
                meta := some { err := none, preBalances := [], postBalances := [] },
                instructions := [Instruction.parsed
                  { program := "spl-token", type := "transfer",
                    info := { source := "SRC", destination := "ATA",
                              amount := some 15000, tokenAmount := none } }] })
        (some "ATA") 0 "sig" (1 / 100) 300).valid = true ∧
    (verifyPaymentTokenBody
        (some { blockTime := none,
                meta := some { err := none, preBalances := [], postBalances := [] },
                instructions := [Instruction.parsed
                  { program := "spl-token", type := "transfer",
                    info := { source := "SRC", destination := "ATA",
                              amount := some 15000, tokenAmount := none } }] })
        (some "ATA") 0 "sig" (1 / 100) 300).timestamp = none := by
  constructor <;>
    norm_num [verifyPaymentTokenBody, tokenStale, findTokenTransfer, jsOrNum, ltJS,
      USDC_DECIMALS, jsTruthyOrUndef]

/-- C6 (amended): every verdict either mode returns is well shaped: a failed
verdict carries only the error string; a successful verdict carries signature,
asset label, source, destination and no error, with amount and timestamp also
present in native mode, while in token mode the timestamp (and, for a transfer
with no decoded amount, the amount) may be absent. -/
theorem C6_verdict_shape (fetchTok : Except String (Option ParsedTx))
    (fetchNat : Except String (Option NativeTx)) (rta : Option String)
    (addr : String) (nowMs : ℚ) (sig : String) (expAmt maxAge : ℚ)
    (v w : PaymentVerification)
    (hv : verifyPaymentToken fetchTok rta nowMs sig expAmt maxAge = Except.ok v)
    (hw : verifyPaymentNative fetchNat addr nowMs sig expAmt maxAge = Except.ok w) :
    verdictShapeTok v ∧ verdictShapeNat w := by
  constructor
  · cases fetchTok with
    | error e =>
      injection hv with h
      subst h
      simp [verdictShapeTok]
    | ok tx? =>
      injection hv with h
      subst h
      exact verifyPaymentTokenBody_shape tx? rta nowMs sig expAmt maxAge
  · cases fetchNat with
    | error e =>
      injection hw with h
      subst h
      simp [verdictShapeNat]
    | ok tx? =>
      injection hw with h
      subst h
      exact verifyPaymentNativeBody_shape tx? addr nowMs sig expAmt maxAge

/-- C6 witness: the shape property at the concrete not-found verdicts of both
modes, settled by the amended theorem at that input. -/
theorem C6_witness :
    verdictShapeTok { valid := false, error := some "Transaction not found" } ∧
    verdictShapeNat { valid := false, error := some "Transaction not found" } :=
  C6_verdict_shape (Except.ok none) (Except.ok none) none "R" 0 "s" 1 300
    { valid := false, error := some "Transaction not found" }
    { valid := false, error := some "Transaction not found" } rfl rfl

/-- C9: in token mode a call made while the server is uninitialized (the
derived recipient token account still absent) never yields a valid verdict,
and a record that is found, successful, fresh and contains a transfer is
rejected as sent to the wrong address, because the extracted destination is
compared against the absent expected account. -/
theorem C9_uninitialized_never_valid (fetch : Except String (Option ParsedTx))
    (nowMs : ℚ) (sig : String) (expAmt maxAge : ℚ) (v : PaymentVerification)
    (hv : verifyPaymentToken fetch none nowMs sig expAmt maxAge = Except.ok v) :
    v.valid = false ∧
    (∀ tx ti, fetch = Except.ok (some tx) →
      (tx.meta.bind TxMeta.err).isSome = false →
      tokenStale tx.blockTime nowMs maxAge = false →
      findTokenTransfer tx.instructions = some ti →
      v.error = some "Payment sent to wrong address") := by
  have hval : ∀ tx?, (verifyPaymentTokenBody tx? none nowMs sig expAmt
      maxAge).valid = false := by
    intro tx?
    cases tx? with
    | none => rfl
    | some tx =>
      rw [verifyPaymentTokenBody]
      repeat' split
      all_goals first | rfl | simp_all
  cases fetch with
  | error e =>
    injection hv with h
    subst h
    refine ⟨rfl, ?_⟩
    intro tx ti hfe
    exact absurd hfe (by simp)
  | ok tx? =>
    injection hv with h
    subst h
    refine ⟨hval tx?, ?_⟩
    intro tx ti hfe hok hfresh hti
    injection hfe with h2
    subst h2
    rw [verifyPaymentTokenBody]
    rw [hok]
    simp only [Bool.false_eq_true, if_false]
    rw [hfresh]
    simp only [Bool.false_eq_true, if_false]
    rw [hti]
    dsimp only
    rw [if_pos (show (none : Option String) ≠ some ti.destination by simp)]

/-- C9 witness: a concrete fresh, successful record with a transfer, verified
against an uninitialized server, settled by the theorem at that input. -/
theorem C9_witness :
    ({ valid := false, error := some "Payment sent to wrong address" } :
      PaymentVerification).valid = false ∧
    ({ valid := false, error := some "Payment sent to wrong address" } :
      PaymentVerification).error = some "Payment sent to wrong address" := by
  have h := C9_uninitialized_never_valid
    (Except.ok (some
      { blockTime := some 100,
        meta := some { err := none, preBalances := [], postBalances := [] },
        instructions := [Instruction.parsed
          { program := "spl-token", type := "transfer",
            info := { source := "SRC", destination := "DST",
                      amount := some 15000, tokenAmount := none } }] }))
    100000 "sig" (1 / 100) 300
    { valid := false, error := some "Payment sent to wrong address" }
    (by
      norm_num [verifyPaymentToken, verifyPaymentTokenBody, tokenStale,
        findTokenTransfer, jsOrNum]
      exact fun hc => Option.noConfusion hc)
  exact ⟨h.1, h.2
    { blockTime := some 100,
      meta := some { err := none, preBalances := [], postBalances := [] },
      instructions := [Instruction.parsed
        { program := "spl-token", type := "transfer",
          info := { source := "SRC", destination := "DST",
                    amount := some 15000, tokenAmount := none } }] }
    { source := "SRC", destination := "DST", amount := some 15000 }
    rfl rfl (by norm_num [tokenStale]) rfl⟩

/-- C10: a token-mode record whose block time is null or zero skips the
freshness check entirely (the staleness test is false for every maximum age
and the verdict does not depend on the maximum age at all), while the native
verifier treats the same record as having age equal to the current clock and
rejects it as too old whenever that exceeds the maximum age. -/
theorem C10_null_blocktime_freshness (tx : ParsedTx) (ntx : NativeTx)
    (rta : Option String) (addr : String) (nowMs : ℚ) (sig : String) (expAmt : ℚ)
    (htx : tx.blockTime = none ∨ tx.blockTime = some 0)
    (hntx : ntx.blockTime = none ∨ ntx.blockTime = some 0) :
    (∀ maxAge : ℚ, tokenStale tx.blockTime nowMs maxAge = false) ∧
    (∀ m₁ m₂ : ℚ, verifyPaymentTokenBody (some tx) rta nowMs sig expAmt m₁ =
      verifyPaymentTokenBody (some tx) rta nowMs sig expAmt m₂) ∧
    (∀ maxAge : ℚ, ((⌊nowMs / 1000⌋ : ℤ) : ℚ) > maxAge →
      (verifyPaymentNativeBody (some ntx) addr nowMs sig expAmt maxAge).valid =
        false ∧
      (verifyPaymentNativeBody (some ntx) addr nowMs sig expAmt maxAge).error =
        some ("Transaction too old: " ++
          numStr (((⌊nowMs / 1000⌋ : ℤ) : ℚ) - ntx.blockTime.getD 0) ++
          "s (max " ++ numStr maxAge ++ "s)")) := by
  have hstale : ∀ maxAge : ℚ, tokenStale tx.blockTime nowMs maxAge = false := by
    intro m
    rcases htx with h | h <;> rw [h] <;> simp [tokenStale]
  refine ⟨hstale, ?_, ?_⟩
  · intro m₁ m₂
    rw [verifyPaymentTokenBody, verifyPaymentTokenBody]
    rw [hstale m₁, hstale m₂]
    simp only [Bool.false_eq_true, if_false]
  · intro maxAge hgt
    have h0 : ntx.blockTime.getD 0 = 0 := by
      rcases hntx with h | h <;> rw [h] <;> rfl
    have hcond : ((⌊nowMs / 1000⌋ : ℤ) : ℚ) - ntx.blockTime.getD 0 > maxAge := by
      rw [h0, sub_zero]
      exact hgt
    refine ⟨?_, ?_⟩
    · rw [verifyPaymentNativeBody, if_pos hcond]
    · rw [verifyPaymentNativeBody, if_pos hcond]

/-- C10 witness: a concrete native record with a null block time against a
clock of 1000 seconds, settled by the theorem at that input. -/
theorem C10_witness :
    tokenStale ((none : Option ℚ)) 1000000 300 = false ∧
    (verifyPaymentNativeBody
        (some { blockTime := none, meta := none, staticAccountKeys := ["R"] })
        "R" 1000000 "s" 1 300).valid = false := by
  have h := C10_null_blocktime_freshness
    { blockTime := none, meta := none, instructions := [] }
    { blockTime := none, meta := none, staticAccountKeys := ["R"] }
    none "R" 1000000 "s" 1 (Or.inl rfl) (Or.inl rfl)
  exact ⟨h.1 300, (h.2.2 300 (by norm_num)).1⟩
